import Mathlib

/-
  Verification of the smart-parking-esp32 coordination core.

  Shallow embedding of src/main.cpp: the gate-control state machine
  (gateTask), the lock-acquisition traces of every task, the web snapshot
  handler (handleData), the environmental sampler (dhtTask), and the
  Telegram command handler (telegramTask).
-/

namespace SmartParking

/-- Gate phase as stored in the global gateStatus string: the code only
ever assigns "Closed" (initializer, lines 133, 479, 531) and "Open"
(lines 456, 508). -/
inductive GatePhase
  | Closed
  | Open
deriving DecidableEq

/-- The two event kinds the gate task consumes (EventType values
EVENT_CAR_ENTRY and EVENT_CAR_EXIT; the other enum members are never
enqueued). -/
inductive Event
  | carEntry
  | carExit
deriving DecidableEq

/-- An LCD directive (struct LCDMessage): two display lines. -/
structure LCDMessage where
  line1 : String
  line2 : String
deriving DecidableEq

/-- Micro-actions the gate task performs while servicing one event:
gate-status writes, LCD-queue pushes, servo writes, the dwell delay, and
the two capacity updates done under slotsMutex. -/
inductive GateAction
  | setPhase (p : GatePhase)
  | pushLcd (m : LCDMessage)
  | servoWrite (angle : Nat)
  | dwell (ms : Nat)
  | decSlots
  | incSlotsIfBelow
deriving DecidableEq

/-- The state the gate task reads and writes: availableSlots is a C int
(so modelled as Int), gateStatus the phase string. -/
structure GateState where
  availableSlots : Int
  gateStatus : GatePhase
deriving DecidableEq

/-- TOTAL_PARKING_SLOTS from config.h, copied into the const int
TOTAL_SLOTS (line 131). -/
def TOTAL_SLOTS : Int := 4

/-- Action script of an admitted entry (main.cpp lines 452-494): set
phase Open, push the LCD directive, open the barrier (0 degrees), dwell
2000 ms, close the barrier (90 degrees), set phase Closed, then
decrement availableSlots under slotsMutex. -/
def entryAdmittedActions : List GateAction :=
  [GateAction.setPhase GatePhase.Open,
   GateAction.pushLcd ⟨"Gate: OPEN", "Entering..."⟩,
   GateAction.servoWrite 0,
   GateAction.dwell 2000,
   GateAction.servoWrite 90,
   GateAction.setPhase GatePhase.Closed,
   GateAction.decSlots]

/-- Action script of an exit (main.cpp lines 504-543): same barrier
sequence, then increment availableSlots only if it is below TOTAL_SLOTS
(line 537). -/
def exitActions : List GateAction :=
  [GateAction.setPhase GatePhase.Open,
   GateAction.pushLcd ⟨"Gate: OPEN", "Exiting..."⟩,
   GateAction.servoWrite 0,
   GateAction.dwell 2000,
   GateAction.servoWrite 90,
   GateAction.setPhase GatePhase.Closed,
   GateAction.incSlotsIfBelow]

/-- Effect of one micro-action on the gate-visible state. Servo writes,
LCD pushes and the dwell do not touch GateState. The increment guard
(availableSlots < TOTAL_SLOTS) is the check at line 537; total is passed
as a parameter so the invariant can be stated for any capacity. -/
def applyAction (total : Int) (s : GateState) : GateAction → GateState
  | GateAction.setPhase p => { s with gateStatus := p }
  | GateAction.decSlots => { s with availableSlots := s.availableSlots - 1 }
  | GateAction.incSlotsIfBelow =>
      if s.availableSlots < total then
        { s with availableSlots := s.availableSlots + 1 }
      else s
  | _ => s

/-- The actions an event triggers, as a function of the state at dequeue
time: an entry runs the admitted script only when availableSlots > 0
(line 449); otherwise the event is discarded with no actions (lines
495-498). An exit always runs its script (lines 503-544). -/
def eventActions (s : GateState) : Event → List GateAction
  | Event.carEntry =>
      if s.availableSlots > 0 then entryAdmittedActions else []
  | Event.carExit => exitActions

/-- Run a list of micro-actions from a state. -/
def runActions (total : Int) (s : GateState) (as : List GateAction) : GateState :=
  as.foldl (applyAction total) s

/-- Processing of one dequeued event by gateTask. -/
def processEvent (total : Int) (s : GateState) (e : Event) : GateState :=
  runActions total s (eventActions s e)

/-- Sequential processing of a list of events (gateTask is the only
consumer of both queues and the only writer of availableSlots and
gateStatus, so the events it dequeues form one sequential stream). -/
def processEvents (total : Int) (s : GateState) (es : List Event) : GateState :=
  es.foldl (processEvent total) s

/-- Concatenated micro-action trace of a run over an event list. -/
def runTrace (total : Int) (s : GateState) : List Event → List GateAction
  | [] => []
  | e :: es => eventActions s e ++ runTrace total (processEvent total s e) es

/-- The gate-status values written by a list of actions, in order. -/
def phaseWrites (as : List GateAction) : List GatePhase :=
  as.filterMap fun a =>
    match a with
    | GateAction.setPhase p => some p
    | _ => none

/-- The servo angles written by a list of actions, in order. -/
def servoWrites (as : List GateAction) : List Nat :=
  as.filterMap fun a =>
    match a with
    | GateAction.servoWrite n => some n
    | _ => none

/-- The gate phase at every instant of the processing of one event: the
phase before the first action and after each action. -/
def phaseTraceOf (total : Int) (s : GateState) (e : Event) : List GatePhase :=
  (List.scanl (applyAction total) s (eventActions s e)).map GateState.gateStatus

/-- For each dwell action of the event's processing, the phase in force
while the task sleeps. -/
def dwellPhases (total : Int) (s : GateState) (e : Event) : List GatePhase :=
  ((List.scanl (applyAction total) s (eventActions s e)).zip (eventActions s e)).filterMap
    fun p =>
      match p.2 with
      | GateAction.dwell _ => some p.1.gateStatus
      | _ => none

/-- Collapse adjacent equal phases, leaving the sequence of distinct
phases the gate moved through. -/
def collapseRuns : List GatePhase → List GatePhase
  | [] => []
  | [a] => [a]
  | a :: b :: rest =>
      if a = b then collapseRuns (b :: rest) else a :: collapseRuns (b :: rest)

/-- The five mutexes declared in main.cpp lines 122-126. These are the
only locks in the program; in particular no mutex exists for the
connectivity flags wifiConnected and internetConnected. -/
inductive Mutex
  | slots
  | gateStatus
  | lcd
  | dht
  | time
deriving DecidableEq

/-- A lock acquisition or release (xSemaphoreTake / xSemaphoreGive). -/
inductive LockAction
  | take (m : Mutex)
  | give (m : Mutex)
deriving DecidableEq

/-- Lock trace of gateTask servicing an admitted entry (lines 448-494):
take and give slotsMutex around the capacity check, gateStatusMutex
around each phase write, then slotsMutex again around the decrement. -/
def gateEntryAdmittedLocks : List LockAction :=
  [LockAction.take Mutex.slots, LockAction.give Mutex.slots,
   LockAction.take Mutex.gateStatus, LockAction.give Mutex.gateStatus,
   LockAction.take Mutex.gateStatus, LockAction.give Mutex.gateStatus,
   LockAction.take Mutex.slots, LockAction.give Mutex.slots]

/-- Lock trace of gateTask denying an entry (lines 448, 495-498). -/
def gateEntryDeniedLocks : List LockAction :=
  [LockAction.take Mutex.slots, LockAction.give Mutex.slots]

/-- Lock trace of gateTask servicing an exit (lines 503-544). -/
def gateExitLocks : List LockAction :=
  [LockAction.take Mutex.gateStatus, LockAction.give Mutex.gateStatus,
   LockAction.take Mutex.gateStatus, LockAction.give Mutex.gateStatus,
   LockAction.take Mutex.slots, LockAction.give Mutex.slots]

/-- Lock trace of one ledTask iteration (lines 561-566). -/
def ledTaskLocks : List LockAction :=
  [LockAction.take Mutex.slots, LockAction.give Mutex.slots]

/-- Lock trace of one successful dhtTask sample (lines 587-599). -/
def dhtTaskLocks : List LockAction :=
  [LockAction.take Mutex.dht, LockAction.give Mutex.dht]

/-- Lock trace of wifiTask writing the cached time strings (lines
377-381). The connectivity flags at lines 350-365 are written with no
lock at all, so they contribute no lock actions. -/
def wifiTaskTimeLocks : List LockAction :=
  [LockAction.take Mutex.time, LockAction.give Mutex.time]

/-- Lock trace of lcdTask showing a queued priority message (lines
621-631). -/
def lcdPriorityLocks : List LockAction :=
  [LockAction.take Mutex.lcd, LockAction.give Mutex.lcd]

/-- Lock trace of lcdTask's periodic default rendering (lines 633-665):
lcdMutex is taken at line 634 and only given back at line 662, and while
it is held the task takes and gives timeMutex (640-643), slotsMutex
(647-649) and gateStatusMutex (657-660). -/
def lcdDefaultLocks : List LockAction :=
  [LockAction.take Mutex.lcd,
   LockAction.take Mutex.time, LockAction.give Mutex.time,
   LockAction.take Mutex.slots, LockAction.give Mutex.slots,
   LockAction.take Mutex.gateStatus, LockAction.give Mutex.gateStatus,
   LockAction.give Mutex.lcd]

/-- Lock trace of handleData building the /data JSON (lines 767-799). -/
def handleDataLocks : List LockAction :=
  [LockAction.take Mutex.slots, LockAction.give Mutex.slots,
   LockAction.take Mutex.gateStatus, LockAction.give Mutex.gateStatus,
   LockAction.take Mutex.dht, LockAction.give Mutex.dht,
   LockAction.take Mutex.time, LockAction.give Mutex.time]

/-- Lock trace of the telegram /status handler (lines 709-718). -/
def telegramStatusLocks : List LockAction :=
  [LockAction.take Mutex.slots, LockAction.give Mutex.slots]

/-- Lock trace of the telegram /time handler (lines 719-727). -/
def telegramTimeLocks : List LockAction :=
  [LockAction.take Mutex.time, LockAction.give Mutex.time]

/-- Lock trace of the telegram /temp handler (lines 728-736). -/
def telegramTempLocks : List LockAction :=
  [LockAction.take Mutex.dht, LockAction.give Mutex.dht]

/-- Lock trace of the telegram /all handler (lines 737-753). -/
def telegramAllLocks : List LockAction :=
  [LockAction.take Mutex.time, LockAction.give Mutex.time,
   LockAction.take Mutex.slots, LockAction.give Mutex.slots,
   LockAction.take Mutex.dht, LockAction.give Mutex.dht]

/-- Every lock-taking operation of every worker in main.cpp. -/
def allLockTraces : List (List LockAction) :=
  [gateEntryAdmittedLocks, gateEntryDeniedLocks, gateExitLocks,
   ledTaskLocks, dhtTaskLocks, wifiTaskTimeLocks,
   lcdPriorityLocks, lcdDefaultLocks, handleDataLocks,
   telegramStatusLocks, telegramTimeLocks, telegramTempLocks,
   telegramAllLocks]

/-- Effect of one lock action on the multiset of held locks. -/
def applyLock (held : List Mutex) : LockAction → List Mutex
  | LockAction.take m => m :: held
  | LockAction.give m => held.erase m

/-- The set of held locks at every instant of a trace, starting from no
locks held. -/
def heldSets (as : List LockAction) : List (List Mutex) :=
  List.scanl applyLock [] as

/-- The maximum number of locks held simultaneously during a trace. -/
def maxHeld (as : List LockAction) : Nat :=
  ((heldSets as).map List.length).foldl Nat.max 0

/-- The four mutexes guarding logical state groups: capacity, gate
phase, environmental reading, time cache. lcdMutex guards the display
device itself. -/
def stateGroupLocks : List Mutex :=
  [Mutex.slots, Mutex.gateStatus, Mutex.dht, Mutex.time]

/-- How many state-group locks a held set contains. -/
def groupLocksHeld (held : List Mutex) : Nat :=
  (held.filter fun m => decide (m ∈ stateGroupLocks)).length

/-- The shared globals of main.cpp lines 131-139 that tasks exchange. -/
inductive StateField
  | availableSlots
  | gateStatus
  | temperature
  | humidity
  | currentTime
  | currentDate
  | wifiConnected
  | internetConnected
deriving DecidableEq

/-- The reads handleData performs, each paired with the locks held at
that read (lines 767-795): availableSlots twice under slotsMutex
(available and occupied fields), gateStatus under gateStatusMutex,
temperature and humidity under dhtMutex, time and date under timeMutex,
and wifiConnected / internetConnected at lines 793-794 with no lock
held. -/
def handleDataReads : List (StateField × List Mutex) :=
  [(StateField.availableSlots, [Mutex.slots]),
   (StateField.availableSlots, [Mutex.slots]),
   (StateField.gateStatus, [Mutex.gateStatus]),
   (StateField.temperature, [Mutex.dht]),
   (StateField.humidity, [Mutex.dht]),
   (StateField.currentTime, [Mutex.time]),
   (StateField.currentDate, [Mutex.time]),
   (StateField.wifiConnected, []),
   (StateField.internetConnected, [])]

/-- The writes wifiTask performs to shared globals, each paired with the
locks held at that write: wifiConnected (line 351) and internetConnected
(lines 363-365) with no lock held, currentTime and currentDate under
timeMutex (lines 377-381). -/
def wifiTaskWrites : List (StateField × List Mutex) :=
  [(StateField.wifiConnected, []),
   (StateField.internetConnected, []),
   (StateField.currentTime, [Mutex.time]),
   (StateField.currentDate, [Mutex.time])]

/-- The stored environmental reading: the globals temperature and
humidity (lines 134-135). Sensor floats are modelled as rationals; a
NaN returned by the driver is modelled as none in the sample below. -/
structure EnvReading where
  temperature : ℚ
  humidity : ℚ
deriving DecidableEq

/-- One iteration of dhtTask (lines 582-604): h and t are the values
returned by dht.readHumidity() / dht.readTemperature(), with none
standing for NaN. If neither is NaN (the isnan checks at line 586), both
globals are overwritten under dhtMutex; otherwise the stored reading is
left untouched and the fault line "Invalid reading - check wiring" is
logged (line 601). The Bool is true exactly when the fault is logged. -/
def dhtStep (s : EnvReading) (h t : Option ℚ) : EnvReading × Bool :=
  match h, t with
  | some hv, some tv => ({ temperature := tv, humidity := hv }, false)
  | _, _ => (s, true)

/-- The core shared state visible to the presentation paths: all the
mutable globals of lines 132-139. -/
structure CoreState where
  availableSlots : Int
  gateStatus : GatePhase
  temperature : ℚ
  humidity : ℚ
  currentTime : String
  currentDate : String
  wifiConnected : Bool
  internetConnected : Bool
deriving DecidableEq

/-- Decimal rendering of a sensor value; the one-decimal rounding of
Arduino String(x, 1) is abstracted to exact rational printing, which
does not affect any state-mutation claim. -/
def fmt1 (x : ℚ) : String :=
  toString x

/-- Reply of the /start handler (lines 700-708); decorative emoji bytes
are elided. -/
def startMessage : String :=
  "*FreeRTOS Parking System*\n\nAvailable Commands:\n/status - Parking status\n/time - Date & Time\n/temp - Temperature\n/all - Complete info"

/-- Reply of the /status handler (lines 709-718): reads availableSlots
under slotsMutex and appends a FULL marker when it is zero. -/
def statusMessage (s : CoreState) : String :=
  "*Parking Status*\n\nAvailable: " ++ toString s.availableSlots ++ "/" ++ toString TOTAL_SLOTS
    ++ (if s.availableSlots = 0 then " FULL" else " OK")

/-- Reply of the /time handler (lines 719-727): reads the cached date
and time under timeMutex. -/
def timeMessage (s : CoreState) : String :=
  "*Date & Time*\n\n" ++ s.currentDate ++ "\n" ++ s.currentTime

/-- Reply of the /temp handler (lines 728-736): reads temperature and
humidity under dhtMutex. -/
def tempMessage (s : CoreState) : String :=
  "*Environment*\n\nTemperature: " ++ fmt1 s.temperature ++ "C\nHumidity: " ++ fmt1 s.humidity ++ "%"

/-- Reply of the /all handler (lines 737-753): reads the time cache, the
capacity counter and the environmental reading, one lock at a time. -/
def allMessage (s : CoreState) : String :=
  "*Complete Status*\n\n" ++ s.currentDate ++ " " ++ s.currentTime ++ "\n\nParking: "
    ++ toString s.availableSlots ++ "/" ++ toString TOTAL_SLOTS
    ++ "\nTemp: " ++ fmt1 s.temperature ++ "C\nHumidity: " ++ fmt1 s.humidity ++ "%"

/-- One telegram command dispatch (telegramTask lines 700-753): every
branch only reads the shared globals to format a reply; a text matching
no command produces no reply (the for-loop body has no else branch). The
returned CoreState is the shared state after the dispatch. -/
def handleTelegramCommand (s : CoreState) (text : String) : CoreState × Option String :=
  if text = "/start" then (s, some startMessage)
  else if text = "/status" then (s, some (statusMessage s))
  else if text = "/time" then (s, some (timeMessage s))
  else if text = "/temp" then (s, some (tempMessage s))
  else if text = "/all" then (s, some (allMessage s))
  else (s, none)

/-- Modulus of the 32-bit unsigned millisecond counter returned by
millis(). -/
def UINT32_MOD : Nat := 4294967296

/-- The value of millis() when the true elapsed time since boot is
elapsedMs milliseconds: an unsigned 32-bit counter, so reduced modulo
2^32. -/
def millisAt (elapsedMs : Nat) : Nat :=
  elapsedMs % UINT32_MOD

/-- The uptime field of the /data JSON (handleData line 795):
millis() / 1000, integer division. -/
def uptimeSecondsAt (elapsedMs : Nat) : Nat :=
  millisAt elapsedMs / 1000

theorem processEvent_entry_slots (total : Int) (s : GateState) :
    (processEvent total s Event.carEntry).availableSlots =
      if s.availableSlots > 0 then s.availableSlots - 1 else s.availableSlots := by
  by_cases h : s.availableSlots > 0 <;>
    simp [processEvent, eventActions, entryAdmittedActions, runActions, applyAction, h]

theorem processEvent_exit_slots (total : Int) (s : GateState) :
    (processEvent total s Event.carExit).availableSlots =
      if s.availableSlots < total then s.availableSlots + 1 else s.availableSlots := by
  by_cases h : s.availableSlots < total <;>
    simp [processEvent, eventActions, exitActions, runActions, applyAction, h]

theorem processEvent_slots_bounds (total : Int) (s : GateState) (e : Event)
    (h1 : 0 ≤ s.availableSlots) (h2 : s.availableSlots ≤ total) :
    0 ≤ (processEvent total s e).availableSlots ∧
      (processEvent total s e).availableSlots ≤ total := by
  cases e
  · rw [processEvent_entry_slots]; constructor <;> split <;> omega
  · rw [processEvent_exit_slots]; constructor <;> split <;> omega

theorem processEvents_slots_bounds (total : Int) (es : List Event) :
    ∀ s : GateState, 0 ≤ s.availableSlots → s.availableSlots ≤ total →
      0 ≤ (processEvents total s es).availableSlots ∧
        (processEvents total s es).availableSlots ≤ total := by
  induction es with
  | nil => exact fun s h1 h2 => ⟨h1, h2⟩
  | cons e es ih =>
      intro s h1 h2
      have h := processEvent_slots_bounds total s e h1 h2
      simpa [processEvents] using ih (processEvent total s e) h.1 h.2

/-- Claim C1: from available = total, any sequence of entry and exit
events keeps availableSlots within [0, total]; a single entry decrements
exactly when the counter is strictly positive, and a single exit
increments exactly when it is strictly below total. -/
theorem availableSlots_bounds (total : Int) (s : GateState) (es : List Event)
    (h0 : 0 ≤ total) :
    (0 ≤ (processEvents total ⟨total, GatePhase.Closed⟩ es).availableSlots ∧
     (processEvents total ⟨total, GatePhase.Closed⟩ es).availableSlots ≤ total) ∧
    ((processEvent total s Event.carEntry).availableSlots =
       if s.availableSlots > 0 then s.availableSlots - 1 else s.availableSlots) ∧
    ((processEvent total s Event.carExit).availableSlots =
       if s.availableSlots < total then s.availableSlots + 1 else s.availableSlots) :=
  ⟨processEvents_slots_bounds total es ⟨total, GatePhase.Closed⟩ h0 le_rfl,
   processEvent_entry_slots total s, processEvent_exit_slots total s⟩

/-- Witness for C1 at total = 4, a three-event sequence and the state
with two free slots. -/
theorem availableSlots_bounds_witness :
    (0 ≤ (processEvents 4 ⟨4, GatePhase.Closed⟩
            [Event.carEntry, Event.carExit, Event.carEntry]).availableSlots ∧
     (processEvents 4 ⟨4, GatePhase.Closed⟩
            [Event.carEntry, Event.carExit, Event.carEntry]).availableSlots ≤ 4) ∧
    ((processEvent 4 ⟨2, GatePhase.Closed⟩ Event.carEntry).availableSlots =
       if (2 : Int) > 0 then 2 - 1 else 2) ∧
    ((processEvent 4 ⟨2, GatePhase.Closed⟩ Event.carExit).availableSlots =
       if (2 : Int) < 4 then 2 + 1 else 2) :=
  availableSlots_bounds 4 ⟨2, GatePhase.Closed⟩
    [Event.carEntry, Event.carExit, Event.carEntry] (by decide)

/-- Claim C2: an entry event arriving while availableSlots = 0 triggers
no micro-action at all (no servo write, no LCD push, no phase write) and
leaves the gate state exactly as it was. -/
theorem entry_denied_when_full (total : Int) (s : GateState)
    (h : s.availableSlots = 0) :
    processEvent total s Event.carEntry = s ∧
    eventActions s Event.carEntry = [] := by
  have hng : ¬ (s.availableSlots > 0) := by omega
  exact ⟨by simp [processEvent, eventActions, hng, runActions],
         by simp [eventActions, hng]⟩

/-- Witness for C2 at the full lot. -/
theorem entry_denied_when_full_witness :
    processEvent 4 ⟨0, GatePhase.Closed⟩ Event.carEntry = ⟨0, GatePhase.Closed⟩ ∧
    eventActions ⟨0, GatePhase.Closed⟩ Event.carEntry = [] :=
  entry_denied_when_full 4 ⟨0, GatePhase.Closed⟩ rfl

/-- Claim C3: an exit event always drives exactly one open (0 degrees)
then close (90 degrees) servo pair with a dwell in between, increments
availableSlots exactly when it is strictly below total, and from
available = 0 with total = 4 one exit yields available = 1. -/
theorem exit_event_spec (total : Int) (s : GateState) :
    servoWrites (eventActions s Event.carExit) = [0, 90] ∧
    GateAction.dwell 2000 ∈ eventActions s Event.carExit ∧
    (processEvent total s Event.carExit).availableSlots =
      (if s.availableSlots < total then s.availableSlots + 1 else s.availableSlots) ∧
    ((processEvent total s Event.carExit).availableSlots = s.availableSlots + 1 ↔
      s.availableSlots < total) ∧
    (processEvent 4 ⟨0, GatePhase.Closed⟩ Event.carExit).availableSlots = 1 := by
  refine ⟨rfl, (by decide : GateAction.dwell 2000 ∈ exitActions),
    processEvent_exit_slots total s, ?_, by decide⟩
  rw [processEvent_exit_slots]
  constructor
  · intro hEq
    by_contra hc
    rw [if_neg hc] at hEq
    omega
  · intro hlt
    rw [if_pos hlt]

/-- Claim C4: if the gate phase is Closed when an event is dequeued, it
is Closed again when the event's processing ends; the phases traversed
during the processing collapse to exactly Closed, Open, Closed for an
admitted entry or an exit and to just Closed for a denied entry; and
every dwell is slept through with the phase Open. -/
theorem gate_phase_protocol (total : Int) (s : GateState) (e : Event)
    (h : s.gateStatus = GatePhase.Closed) :
    (processEvent total s e).gateStatus = GatePhase.Closed ∧
    collapseRuns (phaseTraceOf total s e) =
      (if eventActions s e = [] then [GatePhase.Closed]
       else [GatePhase.Closed, GatePhase.Open, GatePhase.Closed]) ∧
    (∀ p ∈ dwellPhases total s e, p = GatePhase.Open) := by
  obtain ⟨a, st⟩ := s
  have hst : st = GatePhase.Closed := h
  subst hst
  cases e with
  | carEntry =>
      by_cases hpos : a > 0
      · simp [processEvent, eventActions, entryAdmittedActions, runActions,
              applyAction, phaseTraceOf, dwellPhases, collapseRuns,
              List.scanl, List.zip, List.zipWith, hpos]
      · simp [processEvent, eventActions, runActions, phaseTraceOf,
              dwellPhases, collapseRuns, List.scanl, List.zip, List.zipWith, hpos]
  | carExit =>
      simp [processEvent, eventActions, exitActions, runActions,
            applyAction, phaseTraceOf, dwellPhases, collapseRuns,
            List.scanl, List.zip, List.zipWith, apply_ite GateState.gateStatus]

/-- Witness for C4: an admitted entry from two free slots. -/
theorem gate_phase_protocol_witness :
    (processEvent 4 ⟨2, GatePhase.Closed⟩ Event.carEntry).gateStatus = GatePhase.Closed ∧
    collapseRuns (phaseTraceOf 4 ⟨2, GatePhase.Closed⟩ Event.carEntry) =
      (if eventActions ⟨2, GatePhase.Closed⟩ Event.carEntry = []
       then [GatePhase.Closed]
       else [GatePhase.Closed, GatePhase.Open, GatePhase.Closed]) ∧
    (∀ p ∈ dwellPhases 4 ⟨2, GatePhase.Closed⟩ Event.carEntry, p = GatePhase.Open) :=
  gate_phase_protocol 4 ⟨2, GatePhase.Closed⟩ Event.carEntry rfl

/-- Claim C5: with total = 4 and available = 4, four entry events drive
the counter to 0 while the phase is written Open then Closed exactly
four times, and a fifth entry is denied: it produces no action and no
state change. -/
theorem four_entries_fifth_denied :
    processEvents 4 ⟨4, GatePhase.Closed⟩ (List.replicate 4 Event.carEntry) =
      ⟨0, GatePhase.Closed⟩ ∧
    phaseWrites (runTrace 4 ⟨4, GatePhase.Closed⟩ (List.replicate 4 Event.carEntry)) =
      [GatePhase.Open, GatePhase.Closed, GatePhase.Open, GatePhase.Closed,
       GatePhase.Open, GatePhase.Closed, GatePhase.Open, GatePhase.Closed] ∧
    eventActions ⟨0, GatePhase.Closed⟩ Event.carEntry = [] ∧
    processEvent 4 ⟨0, GatePhase.Closed⟩ Event.carEntry = ⟨0, GatePhase.Closed⟩ :=
  ⟨by decide, by decide, by decide, by decide⟩

/-- Claim C6 is false on the code: it is not the case that every
operation holds at most one lock at a time. lcdTask's default rendering
(lines 633-665) reaches two simultaneously held locks. -/
theorem two_locks_held_counterexample :
    ¬ (∀ tr ∈ allLockTraces, maxHeld tr ≤ 1) := by
  decide

/-- Claim C6 as amended: every operation other than lcdTask's default
rendering holds at most one lock at a time; that rendering holds
lcdMutex while taking the time, capacity and gate-status locks in turn
(two locks held simultaneously, never more); and no operation ever
holds two of the four state-group locks at once. -/
theorem lock_discipline_amended :
    (∀ tr ∈ allLockTraces, tr ≠ lcdDefaultLocks → maxHeld tr ≤ 1) ∧
    maxHeld lcdDefaultLocks = 2 ∧
    (∀ tr ∈ allLockTraces, ∀ held ∈ heldSets tr, groupLocksHeld held ≤ 1) := by
  refine ⟨by decide, by decide, by decide⟩

/-- Witness for the amended C6 at the admitted-entry trace of
gateTask. -/
theorem lock_discipline_amended_witness :
    maxHeld gateEntryAdmittedLocks ≤ 1 :=
  lock_discipline_amended.1 gateEntryAdmittedLocks (by decide) (by decide)

/-- Claim C7 is false on the code: not every access to the connectivity
flags holds a lock; handleData reads wifiConnected and internetConnected
(lines 793-794) with no mutex held, and no mutex dedicated to them
exists among the five declared mutexes. -/
theorem connectivity_lock_counterexample :
    ¬ (∀ p ∈ handleDataReads ++ wifiTaskWrites,
         (p.1 = StateField.wifiConnected ∨ p.1 = StateField.internetConnected) →
           p.2 ≠ []) := by
  decide

/-- Claim C7 as amended: the capacity counter, gate phase, environmental
reading and time cache are each accessed under their own dedicated lock
in handleData and wifiTask, but every access to the connectivity flags
is performed with no lock held: the flags have no mutex. -/
theorem per_group_locks_amended :
    (∀ p ∈ handleDataReads ++ wifiTaskWrites,
       (p.1 = StateField.wifiConnected ∨ p.1 = StateField.internetConnected) →
         p.2 = []) ∧
    (∀ p ∈ handleDataReads ++ wifiTaskWrites,
       p.1 = StateField.availableSlots → p.2 = [Mutex.slots]) ∧
    (∀ p ∈ handleDataReads ++ wifiTaskWrites,
       p.1 = StateField.gateStatus → p.2 = [Mutex.gateStatus]) ∧
    (∀ p ∈ handleDataReads ++ wifiTaskWrites,
       (p.1 = StateField.temperature ∨ p.1 = StateField.humidity) →
         p.2 = [Mutex.dht]) ∧
    (∀ p ∈ handleDataReads ++ wifiTaskWrites,
       (p.1 = StateField.currentTime ∨ p.1 = StateField.currentDate) →
         p.2 = [Mutex.time]) := by
  refine ⟨by decide, by decide, by decide, by decide, by decide⟩

/-- Witness for the amended C7 at the availableSlots read of
handleData. -/
theorem per_group_locks_amended_witness :
    ((StateField.availableSlots, [Mutex.slots]) : StateField × List Mutex).2 =
      [Mutex.slots] :=
  per_group_locks_amended.2.1 (StateField.availableSlots, [Mutex.slots])
    (by decide) rfl

/-- Claim C8: a sample in which the humidity or the temperature read is
NaN leaves the stored reading unchanged and logs the fault, and the
stored reading is overwritten exactly when both values are well-formed
numbers. -/
theorem dht_invalid_keeps_reading (s : EnvReading) (h t : Option ℚ) :
    ((h = none ∨ t = none) → dhtStep s h t = (s, true)) ∧
    (∀ hv tv, h = some hv → t = some tv →
       dhtStep s h t = ({ temperature := tv, humidity := hv }, false)) := by
  constructor
  · rintro (rfl | rfl)
    · cases t <;> rfl
    · cases h <;> rfl
  · rintro hv tv rfl rfl
    rfl

/-- Witness for C8: a NaN humidity read leaves the stored reading at 25
degrees and 60 percent. -/
theorem dht_invalid_keeps_reading_witness :
    dhtStep ⟨25, 60⟩ none (some 30) = (⟨25, 60⟩, true) :=
  (dht_invalid_keeps_reading ⟨25, 60⟩ none (some 30)).1 (Or.inl rfl)

/-- Claim C9: dispatching any telegram command text leaves every field
of the shared core state unchanged: the handler only reads. -/
theorem telegram_commands_pure (s : CoreState) (text : String) :
    (handleTelegramCommand s text).1 = s := by
  unfold handleTelegramCommand
  split
  · rfl
  · split
    · rfl
    · split
      · rfl
      · split
        · rfl
        · split
          · rfl
          · rfl

/-- Claim C10: the uptime field of the /data JSON is the 32-bit
milliseconds counter, reduced modulo 2^32, divided by 1000; it therefore
wraps to 0 after 2^32 milliseconds, which lies between 49 and 50 days,
and it is not monotone in the true elapsed time. -/
theorem uptime_wraparound :
    UINT32_MOD = 2 ^ 32 ∧
    (∀ t : Nat, uptimeSecondsAt t = t % 4294967296 / 1000) ∧
    uptimeSecondsAt 4294967295 = 4294967 ∧
    uptimeSecondsAt 4294967296 = 0 ∧
    (4294967295 < 4294967296 ∧
      uptimeSecondsAt 4294967296 < uptimeSecondsAt 4294967295) ∧
    ¬ Monotone uptimeSecondsAt ∧
    49 * 86400000 < UINT32_MOD ∧ UINT32_MOD < 50 * 86400000 := by
  refine ⟨by norm_num [UINT32_MOD], fun t => rfl, by decide, by decide,
    ⟨by decide, by decide⟩, ?_, by decide, by decide⟩
  intro hm
  have hle : (4294967295 : Nat) ≤ 4294967296 := by norm_num
  exact absurd (hm hle) (by decide)

end SmartParking
